import Mathlib

/-!
Shallow embedding of the issue/tag persistence layer of the tissue server.

The definitions below are translated from `src/server/issue.py` (the blueprint
registered by the application factory in `src/server/__init__.py`) and, where a
claim cites it, from the earlier draft `src/server/server.py`.  The SQLite
store is a pair of tables plus the next fresh rowid of each; one SQL statement
either applies fully or raises with no effect (statement-level rollback), and
the route functions model the commit/rollback behaviour of the
`with database:` connection context manager explicitly.

The database schema itself (`schema.sql`, `models/schema.sql`) is referenced by
the code and the tests but is not among the repository's files; its constraints
are modelled from the spec where marked below.
-/

namespace Tissue

/-- Row of the `issue` table: `issue(id PK, title, description)`. -/
structure IssueRow where
  id : Nat
  title : String
  description : String
deriving Repr, DecidableEq

/-- Row of the `tag` table: `tag(id PK, namespace, predicate, value, issue_id)`.
The `namespace` column is embedded as `nspace` (keyword in Lean). -/
structure TagRow where
  id : Nat
  nspace : String
  predicate : String
  value : String
  issue_id : Nat
deriving Repr, DecidableEq

/-- The SQLite database state: the two tables, plus the next fresh rowid of
each table (the value `cursor.lastrowid` reports after an insert). -/
structure DB where
  issues : List IssueRow
  tags : List TagRow
  nextIssueId : Nat
  nextTagId : Nat
deriving Repr, DecidableEq

/-- Python-level exceptions the routes distinguish: `sqlite3.IntegrityError`
is caught separately (HTTP 400) from every other exception (HTTP 500). -/
inductive PyError where
  | integrityError
  | keyError
  | interfaceError
  | operationalError
deriving Repr, DecidableEq

/-- Tag object of a JSON request payload; every field may be absent. -/
structure TagPayload where
  id : Option Nat := none
  nspace : Option String := none
  predicate : Option String := none
  value : Option String := none
deriving Repr, DecidableEq

/-- Issue object of a JSON request payload; every field may be absent.
Numeric wire values are embedded as their stored text. -/
structure IssuePayload where
  id : Option Nat := none
  title : Option String := none
  description : Option String := none
  tags : Option (List TagPayload) := none
deriving Repr, DecidableEq

/-- Modelled from the spec: `schema.sql` is not under `src/`.  The `issue`
table requires a non-null, non-empty `title` (spec section 3; the test
"issue with empty title field" expects the write to raise). -/
def issueTitleOk (title : String) : Bool :=
  title != ""

/-- Modelled from the spec: the tag table's CHECK constraint.  Every tag
requires non-empty `namespace`, `predicate` and `value`; a tag with any empty
field is rejected at write time (spec sections 3 and 6). -/
def tagCheckOk (t : TagRow) : Bool :=
  t.nspace != "" && t.predicate != "" && t.value != ""

/-- Modelled from the spec: the per-issue uniqueness constraint.  Within one
issue's tag list, exact-duplicate tags are rejected (spec section 3; the test
"issue with duplicate tags" expects the second insert to raise). -/
def tagDupOf (t : TagRow) (rows : List TagRow) : Bool :=
  rows.any fun r =>
    r.nspace == t.nspace && r.predicate == t.predicate &&
    r.value == t.value && r.issue_id == t.issue_id

/-- Statement `INSERT INTO issue (title, description) VALUES (?, ?)`.  On
success the fresh rowid (`cursor.lastrowid`) is returned. -/
def insertIssueRow (db : DB) (title description : String) :
    DB × Except PyError Nat :=
  if issueTitleOk title then
    ({ db with
        issues := db.issues ++ [⟨db.nextIssueId, title, description⟩],
        nextIssueId := db.nextIssueId + 1 },
      .ok db.nextIssueId)
  else (db, .error .integrityError)

/-- Statement `INSERT INTO tag (namespace, predicate, value, issue_id)
VALUES (?, ?, ?, ?)` with the modelled schema constraints. -/
def insertTagRow (db : DB) (ns pr v : String) (iid : Nat) :
    DB × Option PyError :=
  let t : TagRow := ⟨db.nextTagId, ns, pr, v, iid⟩
  if tagCheckOk t && !tagDupOf t db.tags then
    ({ db with tags := db.tags ++ [t], nextTagId := db.nextTagId + 1 }, none)
  else (db, some .integrityError)

/-- Rows produced by the query of `get_issue`/`fetch_issue`:
`SELECT ... FROM issue LEFT JOIN tag ON issue.id = tag.issue_id WHERE
issue.id = ?`.  No rows when the issue is absent; one row with NULL tag
columns when it has no tags; otherwise one row per tag. -/
def joinRows (db : DB) (id : Nat) : List (IssueRow × Option TagRow) :=
  match db.issues.find? (fun r => r.id == id) with
  | none => []
  | some ir =>
    match db.tags.filter (fun t => t.issue_id == id) with
    | [] => [(ir, none)]
    | ts => ts.map fun t => (ir, some t)

/-- Tag dict built by the fetch loop; a column is `none` on the left join's
NULL padding row. -/
structure FetchedTag where
  nspace : Option String
  predicate : Option String
  value : Option String
deriving Repr, DecidableEq

/-- Issue dict built by the fetch loop. -/
structure FetchedIssue where
  id : Nat
  title : String
  description : String
  tags : List FetchedTag
deriving Repr, DecidableEq

/-- Embedding of `get_issue` of `src/server/issue.py`.  The loop body sets
`contains_tag = lambda r: bool(row["value"])` and then tests
`if contains_tag:` — the truthiness of the lambda object itself, which is
always true since the function is never called — so a tag dict is appended
for every row of the join, the all-NULL padding row included. -/
def get_issue (db : DB) (id : Nat) : Option FetchedIssue :=
  (joinRows db id).foldl
    (fun issue row =>
      let issue := match issue with
        | none => ({ id := row.1.id, title := row.1.title,
                     description := row.1.description, tags := [] } : FetchedIssue)
        | some i => i
      some { issue with
              tags := issue.tags ++
                [{ nspace := row.2.map TagRow.nspace,
                   predicate := row.2.map TagRow.predicate,
                   value := row.2.map TagRow.value }] })
    none

/-- Embedding of `fetch_issue` of `src/server/server.py` (the earlier draft):
here the loop tests `if row["value"]:`, so a row contributes a tag only when
its `value` column is neither NULL nor the empty string. -/
def fetch_issue (db : DB) (id : Nat) : Option FetchedIssue :=
  (joinRows db id).foldl
    (fun issue row =>
      let issue := match issue with
        | none => ({ id := row.1.id, title := row.1.title,
                     description := row.1.description, tags := [] } : FetchedIssue)
        | some i => i
      if (row.2.map TagRow.value).getD "" != "" then
        some { issue with
                tags := issue.tags ++
                  [{ nspace := row.2.map TagRow.nspace,
                     predicate := row.2.map TagRow.predicate,
                     value := row.2.map TagRow.value }] }
      else some issue)
    none

/-- The tag-insertion loop of `create_issue`: one INSERT per payload tag, with
absent fields defaulted to `""` by `tag.get(..., "")`.  The first failing
statement aborts the loop; the earlier inserts stay in the transaction. -/
def createTagLoop (db : DB) (iid : Nat) (tags : List TagPayload) :
    DB × Option PyError :=
  tags.foldl
    (fun acc tag =>
      match acc with
      | (db, some e) => (db, some e)
      | (db, none) =>
          insertTagRow db (tag.nspace.getD "") (tag.predicate.getD "")
            (tag.value.getD "") iid)
    (db, none)

/-- Embedding of `create_issue` of `src/server/issue.py`: insert the issue row
(`issue["title"]` raises `KeyError` when the key is absent; the description
defaults to `""`), then one tag row per payload tag under the fresh issue id,
and return the payload dict with the assigned id (`{**issue, "id": issue_id}`). -/
def create_issue (db : DB) (issue : IssuePayload) :
    DB × Except PyError IssuePayload :=
  match issue.title with
  | none => (db, .error .keyError)
  | some title =>
    match insertIssueRow db title (issue.description.getD "") with
    | (db1, .error e) => (db1, .error e)
    | (db1, .ok iid) =>
      match createTagLoop db1 iid (issue.tags.getD []) with
      | (db2, some e) => (db2, .error e)
      | (db2, none) => (db2, .ok { issue with id := some iid })

/-- Statement `UPDATE issue SET title = ?, description = ? WHERE id = ?`; the
modelled CHECK constraint on `title` fires when the update would leave a
matched row with an empty title (the test "update title to empty string"
expects this to raise). -/
def updateIssueRow (db : DB) (id : Nat) (title description : String) :
    DB × Option PyError :=
  if db.issues.any (fun r => r.id == id) && !issueTitleOk title then
    (db, some .integrityError)
  else
    ({ db with
        issues := db.issues.map fun r =>
          if r.id == id then { r with title := title, description := description }
          else r },
      none)

/-- The tag re-insertion loop of `replace_issue`: unlike `create_issue`, here
`tag["namespace"]`, `tag["predicate"]`, `tag["value"]` raise `KeyError` when
absent. -/
def replaceTagLoop (db : DB) (iid : Nat) (tags : List TagPayload) :
    DB × Option PyError :=
  tags.foldl
    (fun acc tag =>
      match acc with
      | (db, some e) => (db, some e)
      | (db, none) =>
        match tag.nspace, tag.predicate, tag.value with
        | some ns, some pr, some v => insertTagRow db ns pr v iid
        | _, _, _ => (db, some .keyError))
    (db, none)

/-- Embedding of `replace_issue` of `src/server/issue.py`: overwrite `title`
and `description` (both read with `fields[...]`, raising `KeyError` when
absent), delete the issue's whole tag set, re-insert the supplied tags, and
re-fetch the issue. -/
def replace_issue (db : DB) (id : Nat) (fields : IssuePayload) :
    DB × Except PyError (Option FetchedIssue) :=
  match fields.title, fields.description with
  | some t, some d =>
    match updateIssueRow db id t d with
    | (db1, some e) => (db1, .error e)
    | (db1, none) =>
      let db2 := { db1 with tags := db1.tags.filter fun tg => tg.issue_id != id }
      match replaceTagLoop db2 id (fields.tags.getD []) with
      | (db3, some e) => (db3, .error e)
      | (db3, none) => (db3, .ok (get_issue db3 id))
  | _, _ => (db, .error .keyError)

/-- The issue-field UPDATE of `patch_issue` (`src/server/issue.py`, lines
427-439).  The statement never executes: with neither `title` nor
`description` in `fields` the generated SQL is `UPDATE issue SET  WHERE id = ?`
(an empty SET clause, a syntax error, `sqlite3.OperationalError`); otherwise
the parameter tuple is `(*values, (str(id),))`, whose last element is the
tuple `(str(id),)` rather than the string `str(id)`, a type sqlite3 cannot
bind (`sqlite3.InterfaceError`).  Either way an exception is raised before
any write happens. -/
def patchIssueFieldsStep (fields : IssuePayload) : PyError :=
  if fields.title.isSome || fields.description.isSome then .interfaceError
  else .operationalError

/-- A SET-clause entry of the per-tag UPDATE of `patch_issue`: the field is
used only when the key is present and its value is not `""`. -/
def presentNonempty (o : Option String) : Option String :=
  o.bind fun s => if s = "" then none else some s

/-- The updated version of a tag row under the per-tag UPDATE's SET clause. -/
def overrideTag (r : TagRow) (nsU prU vU : Option String) : TagRow :=
  { r with
      nspace := nsU.getD r.nspace,
      predicate := prU.getD r.predicate,
      value := vU.getD r.value }

/-- Statement `UPDATE tag SET <present fields> WHERE id = ? AND issue_id = ?`,
re-checking the modelled CHECK and per-issue uniqueness constraints on every
updated row. -/
def updateTagRows (db : DB) (tid iid : Nat) (nsU prU vU : Option String) :
    DB × Option PyError :=
  let ok := db.tags.all fun r =>
    if r.id == tid && r.issue_id == iid then
      tagCheckOk (overrideTag r nsU prU vU) &&
        !tagDupOf (overrideTag r nsU prU vU) (db.tags.filter fun o => o.id != r.id)
    else true
  if ok then
    ({ db with
        tags := db.tags.map fun r =>
          if r.id == tid && r.issue_id == iid then overrideTag r nsU prU vU
          else r },
      none)
  else (db, some .integrityError)

/-- One iteration of the tag-reconciliation loop of `patch_issue`
(`src/server/issue.py`, lines 442-477), embedded on its own:
a tag carrying an `id` with at least one present, non-empty field updates the
row matched by `WHERE id = ? AND issue_id = ?`; a tag carrying an `id` with no
such field runs `DELETE FROM tag WHERE id = ?` — matched by the tag id alone,
`issue_id` is not in the WHERE clause; a tag carrying no `id` is inserted as a
new tag under this issue (`tag["namespace"]` etc. raise `KeyError` when
absent). -/
def patchTagStep (db : DB) (iid : Nat) (tag : TagPayload) :
    DB × Option PyError :=
  match tag.id with
  | some tid =>
    let nsU := presentNonempty tag.nspace
    let prU := presentNonempty tag.predicate
    let vU := presentNonempty tag.value
    if nsU.isSome || prU.isSome || vU.isSome then
      updateTagRows db tid iid nsU prU vU
    else
      ({ db with tags := db.tags.filter fun r => r.id != tid }, none)
  | none =>
    match tag.nspace, tag.predicate, tag.value with
    | some ns, some pr, some v => insertTagRow db ns pr v iid
    | _, _, _ => (db, some .keyError)

/-- The tag-reconciliation loop of `patch_issue`, one `patchTagStep` per
payload tag. -/
def patchTagLoop (db : DB) (iid : Nat) (tags : List TagPayload) :
    DB × Option PyError :=
  tags.foldl
    (fun acc tag =>
      match acc with
      | (db, some e) => (db, some e)
      | (db, none) => patchTagStep db iid tag)
    (db, none)

/-- Embedding of `patch_issue` of `src/server/issue.py`.  Its first statement,
the issue-field UPDATE, always raises (`patchIssueFieldsStep`), so the tag
reconciliation (`patchTagLoop`) and the final re-fetch that follow it in the
source are never reached and the store is returned unchanged with the error. -/
def patch_issue (db : DB) (id : Nat) (fields : IssuePayload) :
    DB × Except PyError (Option FetchedIssue) :=
  (db, .error (patchIssueFieldsStep fields))

/-- The loop of `post_issue_route` over the normalized issue list.  The
`try/except` sits inside `with database:`, so an error path returns from
inside the with-block; the block then exits without an exception and sqlite3's
connection context manager commits the writes made so far.  The store in the
returned triple is therefore the committed state; the status is 400 for an
`IntegrityError` and 500 for any other exception. -/
def postLoop (db : DB) (payload : List IssuePayload)
    (created : List IssuePayload) : DB × Nat × List IssuePayload :=
  match payload with
  | [] => (db, 200, created)
  | issue :: rest =>
    match create_issue db issue with
    | (db1, .ok ci) => postLoop db1 rest (created ++ [ci])
    | (db1, .error .integrityError) => (db1, 400, [])
    | (db1, .error _) => (db1, 500, [])

/-- Embedding of `post_issue_route` of `src/server/issue.py`
(POST /api/issue): create every issue of the batch; answer 200 with the
created issues, 400 on a constraint violation, 500 otherwise. -/
def post_issue_route (db : DB) (payload : List IssuePayload) :
    DB × Nat × List IssuePayload :=
  postLoop db payload []

/-- Embedding of `issue_post_endpoint` of `src/server/server.py` (the earlier
draft of the POST route).  Here the `try` encloses `with connection:`, so an
error propagates through the context manager and the whole transaction is
rolled back: on failure the original store is returned. -/
def issue_post_endpoint (db : DB) (payload : List IssuePayload) : DB × Nat :=
  match postLoop db payload [] with
  | (db1, 200, _) => (db1, 200)
  | (_, s, _) => (db, s)

/-- The loop of `put_issue_route` over the normalized issue list.  An issue
whose id is absent from the store is created (`create_issue`); otherwise the
missing `title`/`description`/`tags` are defaulted (PUT replace semantics) and
the issue is replaced (`replace_issue`).  Error returns sit inside the
with-block, committing the writes made so far. -/
def putLoop (db : DB) (payload : List IssuePayload) : DB × Nat :=
  match payload with
  | [] => (db, 200)
  | issue :: rest =>
    match issue.id with
    | none => (db, 500)
    | some iid =>
      if (get_issue db iid).isNone then
        match create_issue db issue with
        | (db1, .ok _) => putLoop db1 rest
        | (db1, .error .integrityError) => (db1, 400)
        | (db1, .error _) => (db1, 500)
      else
        let issue1 := { issue with
          title := some (issue.title.getD ""),
          description := some (issue.description.getD ""),
          tags := some (issue.tags.getD []) }
        match replace_issue db iid issue1 with
        | (db1, .ok _) => putLoop db1 rest
        | (db1, .error .integrityError) => (db1, 400)
        | (db1, .error _) => (db1, 500)

/-- Embedding of `put_issue_route` of `src/server/issue.py` (PUT /api/issue). -/
def put_issue_route (db : DB) (payload : List IssuePayload) : DB × Nat :=
  putLoop db payload

/-- The loop of `patch_issue_route` over the normalized issue list: an issue
whose id is absent from the store answers 404 (returned from inside the
with-block, so writes made for earlier batch elements commit); otherwise the
issue is patched. -/
def patchLoop (db : DB) (payload : List IssuePayload) : DB × Nat :=
  match payload with
  | [] => (db, 200)
  | issue :: rest =>
    match issue.id with
    | none => (db, 500)
    | some iid =>
      if (get_issue db iid).isNone then
        (db, 404)
      else
        match patch_issue db iid issue with
        | (db1, .ok _) => patchLoop db1 rest
        | (db1, .error .integrityError) => (db1, 400)
        | (db1, .error _) => (db1, 500)

/-- Embedding of `patch_issue_route` of `src/server/issue.py`
(PATCH /api/issue). -/
def patch_issue_route (db : DB) (payload : List IssuePayload) : DB × Nat :=
  patchLoop db payload

/-- Embedding of `delete_issue_route` of `src/server/issue.py`
(DELETE /api/issue/[id]): delete the issue row and every tag row carrying its
`issue_id`; always answer 200. -/
def delete_issue_route (db : DB) (id : Nat) : DB × Nat :=
  ({ db with
      issues := db.issues.filter fun r => r.id != id,
      tags := db.tags.filter fun t => t.issue_id != id },
    200)

/-- Reachable-store invariant: every rowid is below the table's next fresh id,
and every tag's `issue_id` references an issue row (the spec's no-orphan
invariant, section 3). -/
def DB.wf (db : DB) : Bool :=
  db.issues.all (fun r => r.id < db.nextIssueId) &&
  db.tags.all (fun t =>
    t.id < db.nextTagId && db.issues.any fun i => i.id == t.issue_id)

/-- The (namespace, predicate, value) triple a payload tag carries into
`create_issue`'s INSERT after `tag.get(..., "")` defaulting. -/
def TagPayload.key (t : TagPayload) : String × String × String :=
  (t.nspace.getD "", t.predicate.getD "", t.value.getD "")

/-- A payload tag all of whose fields arrive non-empty at the INSERT. -/
def TagPayload.valid (t : TagPayload) : Bool :=
  t.nspace.getD "" != "" && t.predicate.getD "" != "" && t.value.getD "" != ""

/-- A tag row collides with a payload tag destined for issue `iid` exactly
when the modelled per-issue uniqueness constraint would reject the insert. -/
def rowHits (iid : Nat) (tg : TagPayload) (t : TagRow) : Bool :=
  t.nspace == tg.nspace.getD "" && t.predicate == tg.predicate.getD "" &&
  t.value == tg.value.getD "" && t.issue_id == iid

/-- Pairwise-distinct keys within one payload's tag list. -/
def distinctKeys : List TagPayload → Bool
  | [] => true
  | t :: ts => ts.all (fun u => u.key != t.key) && distinctKeys ts

end Tissue

namespace Tissue

/-- Claim C2 (code_bug evidence).  For the stored tagless issue 6
("Lonely Issue"), `get_issue` of `src/server/issue.py` returns a tag list
holding one all-NULL tag — the left join's padding row is appended because
`if contains_tag:` tests the lambda object itself — while `fetch_issue` of
`src/server/server.py`, which the repository's `test_fetch_issue` exercises,
returns the empty tag list the claim states. -/
theorem get_issue_tagless_returns_junk_tag :
    get_issue ⟨[⟨6, "Lonely Issue", "This issue has no tags."⟩], [], 7, 1⟩ 6 =
      some ⟨6, "Lonely Issue", "This issue has no tags.", [⟨none, none, none⟩]⟩ ∧
    fetch_issue ⟨[⟨6, "Lonely Issue", "This issue has no tags."⟩], [], 7, 1⟩ 6 =
      some ⟨6, "Lonely Issue", "This issue has no tags.", []⟩ := by
  constructor <;> rfl

/-- Claim C3 (code_bug evidence).  Creating the valid zero-tag issue
`{title: "Lonely", description: "d", tags: []}` returns it with
`tags = []` and assigned id 1, but fetching id 1 back through `get_issue`
yields one all-NULL tag, so the round-trip fails on the tag multiset. -/
theorem roundtrip_fails_on_tagless_issue :
    create_issue ⟨[], [], 1, 1⟩
        { title := some "Lonely", description := some "d", tags := some [] } =
      (⟨[⟨1, "Lonely", "d"⟩], [], 2, 1⟩,
        .ok { id := some 1, title := some "Lonely", description := some "d",
              tags := some [] }) ∧
    get_issue ⟨[⟨1, "Lonely", "d"⟩], [], 2, 1⟩ 1 =
      some ⟨1, "Lonely", "d", [⟨none, none, none⟩]⟩ := by
  constructor <;> rfl

/-- Claim C1 (code_bug evidence).  POST of the batch
`[{title: "A"}, {title: "B", tags: [t, t]}]` fails on the duplicate tag of the
second issue, yet `post_issue_route` of `src/server/issue.py` answers 400 with
issue A, issue B's row and B's first tag all committed: the error return exits
the `with database:` block without an exception, so the connection context
manager commits instead of rolling back.  `issue_post_endpoint` of
`src/server/server.py`, whose `try` encloses the with-block, returns the
store unchanged on the same input. -/
theorem post_route_commits_partial_batch :
    post_issue_route ⟨[], [], 1, 1⟩
        [{ title := some "A", tags := some [] },
         { title := some "B",
           tags := some
             [{ nspace := some "x", predicate := some "y", value := some "z" },
              { nspace := some "x", predicate := some "y", value := some "z" }] }] =
      (⟨[⟨1, "A", ""⟩, ⟨2, "B", ""⟩], [⟨1, "x", "y", "z", 2⟩], 3, 2⟩, 400, []) ∧
    issue_post_endpoint ⟨[], [], 1, 1⟩
        [{ title := some "A", tags := some [] },
         { title := some "B",
           tags := some
             [{ nspace := some "x", predicate := some "y", value := some "z" },
              { nspace := some "x", predicate := some "y", value := some "z" }] }] =
      (⟨[], [], 1, 1⟩, 400) := by
  constructor <;> rfl

/-- Claim C7 (code_bug evidence).  Creating one issue with two field-for-field
identical tags does raise the constraint violation (status 400), but through
`post_issue_route` the issue row and the first tag row stay committed rather
than rolled back: the 400 return exits the with-block normally. -/
theorem create_duplicate_commits_partial_rows :
    post_issue_route ⟨[], [], 1, 1⟩
        [{ title := some "Issue with duplicated tags",
           tags := some
             [{ nspace := some "this is a", predicate := some "duplicated",
                value := some "tag" },
              { nspace := some "this is a", predicate := some "duplicated",
                value := some "tag" }] }] =
      (⟨[⟨1, "Issue with duplicated tags", ""⟩],
        [⟨1, "this is a", "duplicated", "tag", 1⟩], 2, 2⟩, 400, []) := by
  rfl

/-- Claim C9 (code_bug evidence).  Patching only `description` on the existing
issue 6 raises before writing anything: the UPDATE's last bound parameter is
the tuple `(str(id),)`, which sqlite3 cannot bind, so `patch_issue` returns
the store unchanged with the binding error instead of updating the issue. -/
theorem patch_description_only_raises :
    patch_issue ⟨[⟨6, "Lonely Issue", "This issue has no tags."⟩], [], 7, 1⟩ 6
        { description := some "This issue has one tag." } =
      (⟨[⟨6, "Lonely Issue", "This issue has no tags."⟩], [], 7, 1⟩,
        .error .interfaceError) := by
  rfl

/-- Claim C5 (code_bug evidence).  A patch of issue 1 whose fields carry only
a tag list (a delete-shaped entry naming the issue's own tag 1) raises on the
issue-field UPDATE — with no title and no description the generated SQL has an
empty SET clause — so no tag reconciliation happens: the store, tag 1
included, is returned unchanged with the syntax error. -/
theorem patch_never_reaches_tag_loop :
    patch_issue ⟨[⟨1, "t", "d"⟩], [⟨1, "a", "b", "c", 1⟩], 2, 2⟩ 1
        { tags := some [{ id := some 1 }] } =
      (⟨[⟨1, "t", "d"⟩], [⟨1, "a", "b", "c", 1⟩], 2, 2⟩,
        .error .operationalError) := by
  rfl

/-- Claim C10 (counterexample).  Store: issues 1 and 2, and tag row 1 owned by
issue 2.  A patch on issue 1 naming tag id 1 with no fields does not delete
issue 2's tag: `patch_issue` raises on the issue-field UPDATE before the tag
loop, and the store — issue 2's tag included — is unchanged. -/
theorem patch_does_not_delete_other_issues_tag :
    (patch_issue ⟨[⟨1, "t1", "d1"⟩, ⟨2, "t2", "d2"⟩], [⟨1, "a", "b", "c", 2⟩], 3, 2⟩ 1
        { tags := some [{ id := some 1 }] }).1 =
      ⟨[⟨1, "t1", "d1"⟩, ⟨2, "t2", "d2"⟩], [⟨1, "a", "b", "c", 2⟩], 3, 2⟩ := by
  rfl

end Tissue

namespace Tissue

/-- Helper: when no issue row carries `id`, the fetch query returns no rows
and both fetch functions report the issue as absent. -/
theorem get_issue_eq_none_of_absent (db : DB) (id : Nat)
    (h : ∀ r ∈ db.issues, r.id ≠ id) : get_issue db id = none := by
  have hf : db.issues.find? (fun r => r.id == id) = none := by
    rw [List.find?_eq_none]
    intro r hr
    simpa using h r hr
  simp [get_issue, joinRows, hf]

/-- Helper: a filter that keeps every element of a list is the identity. -/
theorem filter_self_of_all {α : Type} (p : α → Bool) (l : List α)
    (h : ∀ a ∈ l, p a = true) : l.filter p = l := by
  induction l with
  | nil => rfl
  | cons a t ih =>
    rw [List.filter_cons, h a (List.mem_cons_self a t),
      ih fun b hb => h b (List.mem_cons_of_mem a hb)]
    simp

/-- Claim C6 (confirmed).  A patch request naming an id held by no issue row
answers 404 with the store unchanged: `patch_issue_route` checks
`get_issue(cursor, issue["id"]) is None` before touching anything. -/
theorem patch_route_404_on_missing_id (db : DB) (fields : IssuePayload)
    (iid : Nat) (hid : fields.id = some iid)
    (habs : ∀ r ∈ db.issues, r.id ≠ iid) :
    patch_issue_route db [fields] = (db, 404) := by
  have hg := get_issue_eq_none_of_absent db iid habs
  simp [patch_issue_route, patchLoop, hid, hg]

/-- Claim C6 witness at a concrete input. -/
theorem patch_route_404_on_missing_id_witness :
    patch_issue_route ⟨[⟨1, "t", "d"⟩], [], 2, 1⟩
        [{ id := some 9, description := some "x" }] =
      (⟨[⟨1, "t", "d"⟩], [], 2, 1⟩, 404) :=
  patch_route_404_on_missing_id ⟨[⟨1, "t", "d"⟩], [], 2, 1⟩
    { id := some 9, description := some "x" } 9 rfl (by decide)

/-- Claim C8 (confirmed).  On any reachable store, the delete route answers
200, removes the issue row with the given id and every tag row owned by it,
keeps every other row, and is a no-op when no issue with that id exists. -/
theorem delete_route_removes_issue_and_tags (db : DB) (id : Nat)
    (hwf : db.wf = true) :
    (delete_issue_route db id).2 = 200 ∧
    (∀ r ∈ (delete_issue_route db id).1.issues, r.id ≠ id) ∧
    (∀ t ∈ (delete_issue_route db id).1.tags, t.issue_id ≠ id) ∧
    (∀ r ∈ db.issues, r.id ≠ id → r ∈ (delete_issue_route db id).1.issues) ∧
    (∀ t ∈ db.tags, t.issue_id ≠ id → t ∈ (delete_issue_route db id).1.tags) ∧
    ((∀ r ∈ db.issues, r.id ≠ id) → (delete_issue_route db id).1 = db) := by
  simp only [DB.wf, Bool.and_eq_true, List.all_eq_true, List.any_eq_true,
    decide_eq_true_eq, beq_iff_eq] at hwf
  refine ⟨rfl, ?_, ?_, ?_, ?_, ?_⟩
  · intro r hr
    simp only [delete_issue_route, List.mem_filter, bne_iff_ne] at hr
    exact hr.2
  · intro t ht
    simp only [delete_issue_route, List.mem_filter, bne_iff_ne] at ht
    exact ht.2
  · intro r hr hne
    simp only [delete_issue_route, List.mem_filter, bne_iff_ne]
    exact ⟨hr, hne⟩
  · intro t ht hne
    simp only [delete_issue_route, List.mem_filter, bne_iff_ne]
    exact ⟨ht, hne⟩
  · intro habs
    have hiss : db.issues.filter (fun r => r.id != id) = db.issues :=
      filter_self_of_all _ _ fun r hr => by simpa [bne_iff_ne] using habs r hr
    have htags : db.tags.filter (fun t => t.issue_id != id) = db.tags := by
      refine filter_self_of_all _ _ fun t ht => ?_
      obtain ⟨-, i, hi, hieq⟩ := hwf.2 t ht
      simp only [bne_iff_ne, ne_eq]
      rw [← hieq]
      exact habs i hi
    simp [delete_issue_route, hiss, htags]

/-- Claim C8 witness at a concrete input (issue 1 owning one tag). -/
theorem delete_route_removes_issue_and_tags_witness :
    (delete_issue_route ⟨[⟨1, "t", "d"⟩], [⟨1, "a", "b", "c", 1⟩], 2, 2⟩ 1).2 = 200 ∧
    (∀ r ∈ (delete_issue_route ⟨[⟨1, "t", "d"⟩], [⟨1, "a", "b", "c", 1⟩], 2, 2⟩ 1).1.issues,
      r.id ≠ 1) ∧
    (∀ t ∈ (delete_issue_route ⟨[⟨1, "t", "d"⟩], [⟨1, "a", "b", "c", 1⟩], 2, 2⟩ 1).1.tags,
      t.issue_id ≠ 1) ∧
    (∀ r ∈ (⟨[⟨1, "t", "d"⟩], [⟨1, "a", "b", "c", 1⟩], 2, 2⟩ : DB).issues, r.id ≠ 1 →
      r ∈ (delete_issue_route ⟨[⟨1, "t", "d"⟩], [⟨1, "a", "b", "c", 1⟩], 2, 2⟩ 1).1.issues) ∧
    (∀ t ∈ (⟨[⟨1, "t", "d"⟩], [⟨1, "a", "b", "c", 1⟩], 2, 2⟩ : DB).tags, t.issue_id ≠ 1 →
      t ∈ (delete_issue_route ⟨[⟨1, "t", "d"⟩], [⟨1, "a", "b", "c", 1⟩], 2, 2⟩ 1).1.tags) ∧
    ((∀ r ∈ (⟨[⟨1, "t", "d"⟩], [⟨1, "a", "b", "c", 1⟩], 2, 2⟩ : DB).issues, r.id ≠ 1) →
      (delete_issue_route ⟨[⟨1, "t", "d"⟩], [⟨1, "a", "b", "c", 1⟩], 2, 2⟩ 1).1 =
        ⟨[⟨1, "t", "d"⟩], [⟨1, "a", "b", "c", 1⟩], 2, 2⟩) :=
  delete_route_removes_issue_and_tags ⟨[⟨1, "t", "d"⟩], [⟨1, "a", "b", "c", 1⟩], 2, 2⟩ 1
    (by decide)

end Tissue

namespace Tissue

/-- Claim C10 (amended).  The delete branch of the tag-reconciliation step
matches rows by the tag id alone — every row carrying `tid` is removed, its
`issue_id` notwithstanding, and every other row is kept — but `patch_issue`
itself raises on the issue-field UPDATE that precedes the loop, so a patch
call returns the store unchanged and never actually runs this branch. -/
theorem patch_delete_branch_matches_tag_id_alone (db : DB) (iid : Nat)
    (tag : TagPayload) (tid : Nat)
    (h1 : tag.id = some tid) (h2 : tag.nspace = none)
    (h3 : tag.predicate = none) (h4 : tag.value = none) :
    ((patchTagStep db iid tag).2 = none ∧
      (∀ t ∈ (patchTagStep db iid tag).1.tags, t.id ≠ tid) ∧
      (∀ t ∈ db.tags, t.id ≠ tid → t ∈ (patchTagStep db iid tag).1.tags)) ∧
    (patch_issue db iid { tags := some [tag] }).1 = db := by
  have hstep : patchTagStep db iid tag =
      ({ db with tags := db.tags.filter fun r => r.id != tid }, none) := by
    simp [patchTagStep, h1, h2, h3, h4, presentNonempty]
  refine ⟨⟨by rw [hstep], ?_, ?_⟩, rfl⟩
  · intro t ht
    rw [hstep] at ht
    simp only [List.mem_filter, bne_iff_ne] at ht
    exact ht.2
  · intro t ht hne
    rw [hstep]
    simp only [List.mem_filter, bne_iff_ne]
    exact ⟨ht, hne⟩

/-- Claim C10 witness at a concrete input: tag row 2 is owned by issue 2 and
the reconciliation step for a patch of issue 1 would remove it, while the full
`patch_issue` call leaves the store as it was. -/
theorem patch_delete_branch_matches_tag_id_alone_witness :
    ((patchTagStep ⟨[⟨1, "t1", "d1"⟩, ⟨2, "t2", "d2"⟩], [⟨2, "a", "b", "c", 2⟩], 3, 3⟩ 1
        { id := some 2 }).2 = none ∧
      (∀ t ∈ (patchTagStep ⟨[⟨1, "t1", "d1"⟩, ⟨2, "t2", "d2"⟩], [⟨2, "a", "b", "c", 2⟩], 3, 3⟩ 1
          { id := some 2 }).1.tags, t.id ≠ 2) ∧
      (∀ t ∈ (⟨[⟨1, "t1", "d1"⟩, ⟨2, "t2", "d2"⟩], [⟨2, "a", "b", "c", 2⟩], 3, 3⟩ : DB).tags,
        t.id ≠ 2 →
        t ∈ (patchTagStep ⟨[⟨1, "t1", "d1"⟩, ⟨2, "t2", "d2"⟩], [⟨2, "a", "b", "c", 2⟩], 3, 3⟩ 1
            { id := some 2 }).1.tags)) ∧
    (patch_issue ⟨[⟨1, "t1", "d1"⟩, ⟨2, "t2", "d2"⟩], [⟨2, "a", "b", "c", 2⟩], 3, 3⟩ 1
        { tags := some [{ id := some 2 }] }).1 =
      ⟨[⟨1, "t1", "d1"⟩, ⟨2, "t2", "d2"⟩], [⟨2, "a", "b", "c", 2⟩], 3, 3⟩ :=
  patch_delete_branch_matches_tag_id_alone
    ⟨[⟨1, "t1", "d1"⟩, ⟨2, "t2", "d2"⟩], [⟨2, "a", "b", "c", 2⟩], 3, 3⟩ 1
    { id := some 2 } 2 rfl rfl rfl rfl

end Tissue

namespace Tissue

/-- Helper: an insert whose row passes the CHECK constraint and duplicates no
existing row extends the tag table. -/
theorem insertTagRow_ok (db : DB) (ns pr v : String) (iid : Nat)
    (hck : tagCheckOk ⟨db.nextTagId, ns, pr, v, iid⟩ = true)
    (hdup : tagDupOf ⟨db.nextTagId, ns, pr, v, iid⟩ db.tags = false) :
    insertTagRow db ns pr v iid =
      ({ db with tags := db.tags ++ [⟨db.nextTagId, ns, pr, v, iid⟩],
                 nextTagId := db.nextTagId + 1 }, none) := by
  simp [insertTagRow, hck, hdup]

/-- Helper: the duplicate check of a row built from a payload tag is the
collision predicate `rowHits` over the existing rows. -/
theorem tagDupOf_eq_any_rowHits (db : DB) (tg : TagPayload) (iid : Nat) :
    tagDupOf ⟨db.nextTagId, tg.nspace.getD "", tg.predicate.getD "",
      tg.value.getD "", iid⟩ db.tags = db.tags.any (rowHits iid tg) := rfl

/-- Helper: the tag-insertion loop of `create_issue` succeeds whenever every
payload tag is valid, the payload's tags are pairwise distinct, and no
existing row collides with any of them. -/
theorem createTagLoop_ok (iid : Nat) (tags : List TagPayload) :
    ∀ db : DB,
      (∀ t ∈ db.tags, ∀ tg ∈ tags, rowHits iid tg t = false) →
      (∀ tg ∈ tags, tg.valid = true) →
      distinctKeys tags = true →
      (createTagLoop db iid tags).2 = none := by
  induction tags with
  | nil => intro db _ _ _; rfl
  | cons tg rest ih =>
    intro db hfresh hvalid hdk
    simp only [distinctKeys, Bool.and_eq_true, List.all_eq_true, bne_iff_ne,
      ne_eq] at hdk
    have hck : tagCheckOk ⟨db.nextTagId, tg.nspace.getD "", tg.predicate.getD "",
        tg.value.getD "", iid⟩ = true := by
      have hv := hvalid tg (List.mem_cons_self tg rest)
      simpa [tagCheckOk, TagPayload.valid] using hv
    have hdup : tagDupOf ⟨db.nextTagId, tg.nspace.getD "", tg.predicate.getD "",
        tg.value.getD "", iid⟩ db.tags = false := by
      rw [tagDupOf_eq_any_rowHits]
      refine Bool.eq_false_iff.mpr fun hcontra => ?_
      rw [List.any_eq_true] at hcontra
      obtain ⟨t, ht, hp⟩ := hcontra
      rw [hfresh t ht tg (List.mem_cons_self tg rest)] at hp
      cases hp
    have hrow := insertTagRow_ok db (tg.nspace.getD "") (tg.predicate.getD "")
      (tg.value.getD "") iid hck hdup
    have hunfold : createTagLoop db iid (tg :: rest) =
        createTagLoop ({ db with
            tags := db.tags ++ [⟨db.nextTagId, tg.nspace.getD "",
              tg.predicate.getD "", tg.value.getD "", iid⟩],
            nextTagId := db.nextTagId + 1 }) iid rest := by
      simp only [createTagLoop, List.foldl_cons]
      rw [hrow]
    rw [hunfold]
    refine ih _ ?_ (fun u hu => hvalid u (List.mem_cons_of_mem tg hu)) hdk.2
    intro t ht tg1 htg1
    simp only [List.mem_append, List.mem_singleton] at ht
    rcases ht with ht | ht
    · exact hfresh t ht tg1 (List.mem_cons_of_mem tg htg1)
    · subst ht
      refine Bool.eq_false_iff.mpr fun hcontra => ?_
      simp only [rowHits, Bool.and_eq_true, beq_iff_eq] at hcontra
      refine hdk.1 tg1 htg1 ?_
      simp only [TagPayload.key]
      rw [← hcontra.1.1.1, ← hcontra.1.1.2, ← hcontra.1.2]

end Tissue

namespace Tissue

/-- Claim C4 (confirmed).  A PUT whose issue id matches no stored issue does
not fail: the route takes the `create_issue` path, so for a create-valid
payload (present non-empty title, all tag fields present and non-empty, no
duplicate tags) the request answers 200 and the final store is exactly the
store `create_issue` produces — upsert semantics, with the row ids assigned
fresh as by create. -/
theorem put_upserts_on_missing_id (db : DB) (p : IssuePayload) (iid : Nat)
    (t : String)
    (hwf : db.wf = true) (hid : p.id = some iid)
    (habs : ∀ r ∈ db.issues, r.id ≠ iid)
    (ht : p.title = some t) (htne : t ≠ "")
    (hvalid : ∀ tg ∈ p.tags.getD [], tg.valid = true)
    (hdk : distinctKeys (p.tags.getD []) = true) :
    ∃ db1 ci, create_issue db p = (db1, Except.ok ci) ∧
      put_issue_route db [p] = (db1, 200) := by
  simp only [DB.wf, Bool.and_eq_true, List.all_eq_true, List.any_eq_true,
    decide_eq_true_eq, beq_iff_eq] at hwf
  have hio : issueTitleOk t = true := by simp [issueTitleOk, htne]
  have hins : insertIssueRow db t (p.description.getD "") =
      ({ db with
          issues := db.issues ++ [⟨db.nextIssueId, t, p.description.getD ""⟩],
          nextIssueId := db.nextIssueId + 1 },
        .ok db.nextIssueId) := by
    simp [insertIssueRow, hio]
  have hfresh : ∀ trow ∈ ({ db with
      issues := db.issues ++ [⟨db.nextIssueId, t, p.description.getD ""⟩],
      nextIssueId := db.nextIssueId + 1 } : DB).tags,
      ∀ tg ∈ p.tags.getD [], rowHits db.nextIssueId tg trow = false := by
    intro trow htr tg _
    obtain ⟨-, i, hi, hieq⟩ := hwf.2 trow htr
    refine Bool.eq_false_iff.mpr fun hcontra => ?_
    simp only [rowHits, Bool.and_eq_true, beq_iff_eq] at hcontra
    have hlt : trow.issue_id < db.nextIssueId := hieq ▸ hwf.1 i hi
    rw [hcontra.2] at hlt
    exact Nat.lt_irrefl _ hlt
  have hloop := createTagLoop_ok db.nextIssueId (p.tags.getD []) _ hfresh hvalid hdk
  rcases hcl : createTagLoop ({ db with
      issues := db.issues ++ [⟨db.nextIssueId, t, p.description.getD ""⟩],
      nextIssueId := db.nextIssueId + 1 }) db.nextIssueId (p.tags.getD [])
    with ⟨db2, e⟩
  rw [hcl] at hloop
  simp only at hloop
  subst hloop
  have hcreate : create_issue db p =
      (db2, .ok { p with id := some db.nextIssueId }) := by
    simp only [create_issue, ht, hins, hcl]
  have hget := get_issue_eq_none_of_absent db iid habs
  refine ⟨db2, { p with id := some db.nextIssueId }, hcreate, ?_⟩
  simp [put_issue_route, putLoop, hid, hget, hcreate]

/-- Claim C4 witness at a concrete input: PUT of a valid issue with id 5 on an
empty store creates it. -/
theorem put_upserts_on_missing_id_witness :
    ∃ db1 ci,
      create_issue ⟨[], [], 1, 1⟩
          { id := some 5, title := some "T",
            tags := some [{ nspace := some "a", predicate := some "b",
                            value := some "c" }] } =
        (db1, Except.ok ci) ∧
      put_issue_route ⟨[], [], 1, 1⟩
          [{ id := some 5, title := some "T",
             tags := some [{ nspace := some "a", predicate := some "b",
                             value := some "c" }] }] =
        (db1, 200) :=
  put_upserts_on_missing_id ⟨[], [], 1, 1⟩
    { id := some 5, title := some "T",
      tags := some [{ nspace := some "a", predicate := some "b",
                      value := some "c" }] }
    5 "T" (by decide) rfl (by decide) rfl (by decide) (by decide) (by decide)

end Tissue
